import Mathlib

/-!
Shallow embedding of `src/core/src/object/file_identifier/mod.rs` — the file
identification and deduplication engine.

Modelling conventions:
- UUIDs (`pub_id` byte vectors) are modelled as `Nat`.
- The local database is an explicit `DbState` (file path rows and object rows);
  Prisma batched writes become pure state transformations, and each committed
  `sync.write_ops` batch is recorded in a trace as a `WriteBatch` (the list of
  CRDT operations and the list of database mutations handed to `write_ops`).
- External effects (filesystem metadata, cas-id hashing, kind classification,
  `Uuid::new_v4`, database write failures) are supplied by an environment: the
  extraction oracle, the fresh-object-id supply, and failure flags for each of
  the four `write_ops` call sites in `identifier_job_step`.
- The `HashMap` keyed by file-path `pub_id` built by `identifier_job_step` is
  modelled as a list in input order (pub_ids are freshly generated UUIDs, so
  keys are distinct in practice, and the claims below do not depend on the
  nondeterministic iteration order of `HashMap`).
-/

namespace FileIdentifier

/-- Transient metadata for one file path (`FileMetadata` in the source):
content identity plus kind. `ObjectKind` is modelled as the `i32` it is cast
to at the single use site (`meta.kind as i32`); the raw `std::fs::Metadata`
field is not consulted by any code under verification and is omitted. -/
structure FileMetadata where
  casId : String
  kind : Int
  deriving DecidableEq, Repr

/-- One row of the `file_path_for_file_identifier::Data` selection: the fields
of a file path the identifier job reads (`id`, `pub_id`, `materialized_path`,
`date_created`). -/
structure FilePathForFileIdentifier where
  id : Int
  pubId : Nat
  materializedPath : String
  dateCreated : Int
  deriving DecidableEq, Repr

/-- A persisted `file_path` row, restricted to the fields this subsystem
mutates or queries: `pub_id`, nullable `cas_id`, nullable object reference. -/
structure DbFilePathRow where
  pubId : Nat
  casId : Option String
  objectPubId : Option Nat
  deriving DecidableEq, Repr

/-- A persisted `object` row, restricted to the fields this subsystem
creates: `pub_id`, `date_created`, `kind`. -/
structure DbObjectRow where
  pubId : Nat
  dateCreated : Int
  kind : Int
  deriving DecidableEq, Repr

/-- The local store. -/
structure DbState where
  filePaths : List DbFilePathRow
  objects : List DbObjectRow
  deriving DecidableEq, Repr

/-- A JSON value as used by the `json!` calls of this module. -/
inductive JVal where
  | str (s : String)
  | int (n : Int)
  | objRef (pubId : Nat)
  deriving DecidableEq, Repr

/-- Which shared model a sync id addresses. -/
inductive SyncModel where
  | filePath
  | object
  deriving DecidableEq, Repr

/-- A replicated (CRDT) operation as constructed by `sync.shared_create` /
`sync.shared_update`. -/
inductive CRDTOp where
  | sharedCreate (model : SyncModel) (pubId : Nat)
  | sharedUpdate (model : SyncModel) (pubId : Nat) (field : String) (value : JVal)
  deriving DecidableEq, Repr

/-- A local database mutation as handed to `write_ops`: the three Prisma
write shapes this module uses. -/
inductive DbMutation where
  | filePathSetCasId (pubId : Nat) (casId : String)
  | filePathConnectObject (pubId : Nat) (objectPubId : Nat)
  | objectCreate (pubId : Nat) (dateCreated : Int) (kind : Int)
  deriving DecidableEq, Repr

/-- One committed `sync.write_ops` batch: the CRDT operations and the database
mutations submitted together. -/
structure WriteBatch where
  syncOps : List CRDTOp
  dbMuts : List DbMutation
  deriving DecidableEq, Repr

/-- Job-fatal errors reachable from this module: `JobError::EarlyFinish` and
a propagated database/sync write failure (any `?` on `write_ops`). -/
inductive JobError where
  | earlyFinish (name : String) (reason : String)
  | dbWrite
  deriving DecidableEq, Repr

/-- Apply one database mutation to the store. -/
def applyMutation (db : DbState) : DbMutation → DbState
  | .filePathSetCasId p c =>
      ⟨db.filePaths.map (fun fp =>
        if fp.pubId = p then ⟨fp.pubId, some c, fp.objectPubId⟩ else fp), db.objects⟩
  | .filePathConnectObject p o =>
      ⟨db.filePaths.map (fun fp =>
        if fp.pubId = p then ⟨fp.pubId, fp.casId, some o⟩ else fp), db.objects⟩
  | .objectCreate p d k => ⟨db.filePaths, db.objects ++ [⟨p, d, k⟩]⟩

/-- Apply a committed batch (its local-mutation side) to the store. -/
def applyBatch (db : DbState) (b : WriteBatch) : DbState :=
  b.dbMuts.foldl applyMutation db

/-- The `object_for_file_identifier` selection: the `pub_id` of an object together
with the `cas_id`s of the file paths linked to it. -/
structure ObjectForFileIdentifier where
  pubId : Nat
  filePathCasIds : List (Option String)
  deriving DecidableEq, Repr

/-- Modelled from the spec: the local-store query "objects linked to any file
path whose content-identity is in set S" (`db.object().find_many` with
`object::file_paths::some([file_path::cas_id::in_vec(...)])` and the
`object_for_file_identifier` selection; the Prisma query engine itself is an
external collaborator, not under `src/`). -/
def queryObjectsForCasIds (db : DbState) (casIds : List String) : List ObjectForFileIdentifier :=
  (db.objects.filter (fun o =>
    db.filePaths.any (fun fp =>
      decide (fp.objectPubId = some o.pubId) &&
        match fp.casId with
        | some c => decide (c ∈ casIds)
        | none => false))).map
    (fun o =>
      ⟨o.pubId,
       (db.filePaths.filter (fun fp => decide (fp.objectPubId = some o.pubId))).map
         (fun fp => fp.casId)⟩)

/-- The environment of one `identifier_job_step` invocation: the extraction
oracle (a `FileMetadata::new` outcome per file path, `none` standing for an
`io::Error` that the step logs and drops), the `Uuid::new_v4` supply for new
object pub_ids (indexed by position in the creation batch), and a failure
flag for each of the four `sync.write_ops` call sites, in source order:
cas-id assignment, link-to-existing, object creation, link-to-created. -/
structure StepEnv where
  extract : FilePathForFileIdentifier → Option FileMetadata
  fresh : Nat → Nat
  casWriteFails : Bool
  linkWriteFails : Bool
  createFails : Bool
  newLinkWriteFails : Bool

/-- The `file_path_metas` map: per file path, the successfully extracted
metadata keyed by the `pub_id` of the file path; extraction errors are logged and
dropped (`flat_map` over the `Result`s). -/
def filePathMetas (env : StepEnv) (filePaths : List FilePathForFileIdentifier) :
    List (Nat × FileMetadata × FilePathForFileIdentifier) :=
  filePaths.filterMap (fun fp => (env.extract fp).map (fun m => (fp.pubId, m, fp)))

/-- Embeds `unique_cas_ids`: the distinct content identities of the chunk
(`HashSet` collected into a `Vec`; only membership is consumed). -/
def uniqueCasIds (metas : List (Nat × FileMetadata × FilePathForFileIdentifier)) :
    List String :=
  (metas.map (fun x => x.2.1.casId)).dedup

/-- The cas-id assignment batch: for every extracted file path, one
`shared_update` of `file_path.cas_id` paired with one `file_path` update. -/
def casAssignBatch (metas : List (Nat × FileMetadata × FilePathForFileIdentifier)) :
    WriteBatch :=
  ⟨metas.map (fun x => .sharedUpdate .filePath x.1 "cas_id" (.str x.2.1.casId)),
   metas.map (fun x => .filePathSetCasId x.1 x.2.1.casId)⟩

/-- Embeds `file_path_object_connect_ops`: the paired CRDT operation and database
update connecting a file path to an object. -/
def file_path_object_connect_ops (filePathId objectId : Nat) : CRDTOp × DbMutation :=
  (.sharedUpdate .filePath filePathId "object" (.objRef objectId),
   .filePathConnectObject filePathId objectId)

/-- Embeds `existing_object_cas_ids`: every non-null `cas_id` appearing among the
file paths of the queried existing objects. -/
def existingObjectCasIds (objs : List ObjectForFileIdentifier) : List String :=
  (objs.map (fun o => o.filePathCasIds.filterMap id)).flatten

/-- The selection of the link phase: each extracted file path whose `cas_id`
matches some existing object is paired with the first such object
(`existing_objects.iter().find(...)`). -/
def existingLinkPairs (metas : List (Nat × FileMetadata × FilePathForFileIdentifier))
    (objs : List ObjectForFileIdentifier) : List (Nat × Nat) :=
  metas.filterMap (fun x =>
    (objs.find? (fun o => decide (some x.2.1.casId ∈ o.filePathCasIds))).map
      (fun o => (x.1, o.pubId)))

/-- The link-to-existing batch: one connect pair per selected file path. -/
def existingLinkBatch (pairs : List (Nat × Nat)) : WriteBatch :=
  ⟨pairs.map (fun p => (file_path_object_connect_ops p.1 p.2).1),
   pairs.map (fun p => (file_path_object_connect_ops p.1 p.2).2)⟩

/-- Embeds `file_paths_requiring_new_object`: extracted file paths whose `cas_id`
did not match any existing object. -/
def filePathsRequiringNewObject
    (metas : List (Nat × FileMetadata × FilePathForFileIdentifier))
    (existingCas : List String) :
    List (Nat × FileMetadata × FilePathForFileIdentifier) :=
  metas.filter (fun x => decide (x.2.1.casId ∉ existingCas))

/-- The object-creation batch: per element of `file_paths_requiring_new_object`
(one per file path, not one per distinct `cas_id`), a fresh object pub_id with
a `shared_create` plus `shared_update`s of `date_created` and `kind` on the
sync side, and one `object::create_unchecked` row on the database side; the
sync sides are concatenated and the rows go into one `create_many`. -/
def objectCreateBatch (env : StepEnv)
    (reqNew : List (Nat × FileMetadata × FilePathForFileIdentifier)) : WriteBatch :=
  ⟨(reqNew.enum.map (fun ix =>
      [CRDTOp.sharedCreate .object (env.fresh ix.1),
       CRDTOp.sharedUpdate .object (env.fresh ix.1) "date_created" (.int ix.2.2.2.dateCreated),
       CRDTOp.sharedUpdate .object (env.fresh ix.1) "kind" (.int ix.2.2.1.kind)])).flatten,
   reqNew.enum.map (fun ix =>
     DbMutation.objectCreate (env.fresh ix.1) ix.2.2.2.dateCreated ix.2.2.1.kind)⟩

/-- The link-to-created batch (`file_path_update_args`): one connect pair per
element of `file_paths_requiring_new_object`, to its freshly minted object. -/
def newLinkBatch (env : StepEnv)
    (reqNew : List (Nat × FileMetadata × FilePathForFileIdentifier)) : WriteBatch :=
  ⟨reqNew.enum.map (fun ix => (file_path_object_connect_ops ix.2.1 (env.fresh ix.1)).1),
   reqNew.enum.map (fun ix => (file_path_object_connect_ops ix.2.1 (env.fresh ix.1)).2)⟩

/-- The result of one chunk step: the store after the committed writes of
the chunk, the trace of committed batches, and the returned pair
`(total_created, updated_file_paths.len())`. -/
structure StepOutcome where
  db : DbState
  trace : List WriteBatch
  objectsCreated : Nat
  objectsLinked : Nat
  deriving DecidableEq, Repr

/-- Embeds `identifier_job_step`. A failure flag set for the cas-assignment,
link-to-existing or link-to-created `write_ops` propagates as an error (`?` in
the source); a create-batch failure is absorbed by `unwrap_or_else` into zero
created rows, and on success `create_many` reports one created row per
submitted create. The link-to-created batch runs only when the reported
created count is nonzero. -/
def identifier_job_step (env : StepEnv) (db : DbState)
    (filePaths : List FilePathForFileIdentifier) : Except JobError StepOutcome :=
  let metas := filePathMetas env filePaths
  let b1 := casAssignBatch metas
  if env.casWriteFails then .error .dbWrite else
  let db1 := applyBatch db b1
  let existingObjects := queryObjectsForCasIds db1 (uniqueCasIds metas)
  let pairs := existingLinkPairs metas existingObjects
  let b2 := existingLinkBatch pairs
  if env.linkWriteFails then .error .dbWrite else
  let db2 := applyBatch db1 b2
  let reqNew := filePathsRequiringNewObject metas (existingObjectCasIds existingObjects)
  if reqNew.isEmpty then
    .ok ⟨db2, [b1, b2], 0, pairs.length⟩
  else
    let b3 := objectCreateBatch env reqNew
    if env.createFails then
      .ok ⟨db2, [b1, b2], 0, pairs.length⟩
    else
      let db3 := applyBatch db2 b3
      let b4 := newLinkBatch env reqNew
      if env.newLinkWriteFails then .error .dbWrite
      else .ok ⟨applyBatch db3 b4, [b1, b2, b3, b4], reqNew.length, pairs.length⟩

/-- Embeds `FileIdentifierReport` (the `total_orphan_paths` field is set by the
job-specific drivers outside this module; it is carried through untouched
here, as are `location_path` and `total_objects_ignored`). -/
structure FileIdentifierReport where
  locationPath : String
  totalOrphanPaths : Nat
  totalObjectsCreated : Nat
  totalObjectsLinked : Nat
  totalObjectsIgnored : Nat
  deriving DecidableEq, Repr

/-- Embeds `FileIdentifierReport::default()`. -/
def FileIdentifierReport.default : FileIdentifierReport := ⟨"", 0, 0, 0, 0⟩

/-- The state owned by the chunk driver after a successful chunk: the store,
the committed-batch trace, the cursor and the running report. Progress
reporting (`ctx.progress`) and logging are external effects with no bearing
on this state and are omitted. -/
structure ProcessOutcome where
  db : DbState
  trace : List WriteBatch
  cursor : Int
  report : FileIdentifierReport
  deriving DecidableEq, Repr

/-- Embeds `process_identifier_file_paths`: rejects an empty batch with
`JobError::EarlyFinish`; otherwise runs the step, accumulates its two counts
into the report and advances the cursor to the `id` of the last row. An error
leaves the cursor and report of the caller untouched (the returned outcome carries
the updated ones only on success). -/
def process_identifier_file_paths (jobName : String) (env : StepEnv) (db : DbState)
    (filePaths : List FilePathForFileIdentifier) (cursor : Int)
    (report : FileIdentifierReport) : Except JobError ProcessOutcome :=
  if filePaths.isEmpty then
    .error (.earlyFinish jobName
      "Expected orphan Paths not returned from database query for this chunk")
  else
    match identifier_job_step env db filePaths with
    | .error e => .error e
    | .ok out =>
        .ok ⟨out.db, out.trace,
             ((filePaths.getLast?).map (fun fp => fp.id)).getD cursor,
             { report with
                 totalObjectsCreated := report.totalObjectsCreated + out.objectsCreated,
                 totalObjectsLinked := report.totalObjectsLinked + out.objectsLinked }⟩

/-- Embeds `finalize_file_identifier`: the emitted cache-invalidation signal (the
name of the invalidated query, or `none` when the job saw no orphan paths) and the
job result. `serde_json::to_value(report)` is modelled as the report value
itself. -/
def finalize_file_identifier (report : FileIdentifierReport) :
    Option String × Except JobError (Option FileIdentifierReport) :=
  (if 0 < report.totalOrphanPaths then some "locations.getExplorerData" else none,
   .ok (some report))

/-- The chunk-driver loop (both job variants): process chunks strictly
sequentially, threading store, cursor and report; stop at the first error. -/
def runChunks (jobName : String) (env : StepEnv) (db : DbState) (cursor : Int)
    (report : FileIdentifierReport) :
    List (List FilePathForFileIdentifier) →
      Except JobError (DbState × Int × FileIdentifierReport)
  | [] => .ok (db, cursor, report)
  | c :: cs =>
    match process_identifier_file_paths jobName env db c cursor report with
    | .error e => .error e
    | .ok out => runChunks jobName env out.db out.cursor out.report cs

/-- Filesystem metadata as `FileMetadata::new` consumes it: whether
`fs::metadata` succeeded, and if so whether the entry is a directory, plus
its length. -/
inductive FsMetadataResult where
  | ok (isDir : Bool) (len : Nat)
  | ioError
  deriving DecidableEq, Repr

/-- The outcome of `FileMetadata::new`: success, a propagated `io::Error`, or
a panic from the directory-rejection assertion. -/
inductive FileMetadataResult where
  | ok (m : FileMetadata)
  | ioError
  | panicked
  deriving DecidableEq, Repr

/-- Embeds `FileMetadata::new`, with its external collaborators as oracle inputs:
the `fs::metadata` result, the resolved extension kind
(`Extension::resolve_conflicting`, `none` falling back to
`ObjectKind::Unknown`, modelled as kind 0), and the `generate_cas_id` result.
It propagates a metadata I/O error, then asserts the entry is not a
directory (panicking otherwise), then propagates a cas-id I/O error. -/
def FileMetadata.new (fsMetadata : FsMetadataResult) (resolvedKind : Option Int)
    (casIdResult : Except Unit String) : FileMetadataResult :=
  match fsMetadata with
  | .ioError => .ioError
  | .ok isDir _len =>
    if isDir then .panicked
    else
      match casIdResult with
      | .error _ => .ioError
      | .ok c => .ok ⟨c, resolvedKind.getD 0⟩

/-- The `existing_objects` local of `identifier_job_step`: the query runs
against the store after the cas-assignment batch committed. -/
def stepExistingObjects (env : StepEnv) (db : DbState)
    (fps : List FilePathForFileIdentifier) : List ObjectForFileIdentifier :=
  queryObjectsForCasIds (applyBatch db (casAssignBatch (filePathMetas env fps)))
    (uniqueCasIds (filePathMetas env fps))

/-- The link-to-existing pairs of one step invocation. -/
def stepLinkPairs (env : StepEnv) (db : DbState)
    (fps : List FilePathForFileIdentifier) : List (Nat × Nat) :=
  existingLinkPairs (filePathMetas env fps) (stepExistingObjects env db fps)

/-- The `file_paths_requiring_new_object` local of one step invocation. -/
def stepReqNew (env : StepEnv) (db : DbState)
    (fps : List FilePathForFileIdentifier) :
    List (Nat × FileMetadata × FilePathForFileIdentifier) :=
  filePathsRequiringNewObject (filePathMetas env fps)
    (existingObjectCasIds (stepExistingObjects env db fps))

/-- The step outcome when the creation phase committed nothing (no file path
required a new object, or the create batch failed and was absorbed as zero
created rows): only the cas-assignment and link-to-existing batches commit. -/
def stepOutcomeNoCreate (env : StepEnv) (db : DbState)
    (fps : List FilePathForFileIdentifier) : StepOutcome :=
  ⟨applyBatch (applyBatch db (casAssignBatch (filePathMetas env fps)))
     (existingLinkBatch (stepLinkPairs env db fps)),
   [casAssignBatch (filePathMetas env fps), existingLinkBatch (stepLinkPairs env db fps)],
   0, (stepLinkPairs env db fps).length⟩

/-- The step outcome when the creation phase committed: all four batches
commit and the created count is the length of `file_paths_requiring_new_object`
(one created row per file path in that list). -/
def stepOutcomeCreate (env : StepEnv) (db : DbState)
    (fps : List FilePathForFileIdentifier) : StepOutcome :=
  ⟨applyBatch (applyBatch (applyBatch (applyBatch db (casAssignBatch (filePathMetas env fps)))
       (existingLinkBatch (stepLinkPairs env db fps)))
       (objectCreateBatch env (stepReqNew env db fps)))
       (newLinkBatch env (stepReqNew env db fps)),
   [casAssignBatch (filePathMetas env fps), existingLinkBatch (stepLinkPairs env db fps),
    objectCreateBatch env (stepReqNew env db fps), newLinkBatch env (stepReqNew env db fps)],
   (stepReqNew env db fps).length, (stepLinkPairs env db fps).length⟩

/-- One logical change to the shared schema, at field granularity: the unit
over which the pairing invariant is stated. -/
inductive LogicalChange where
  | createFilePath (pubId : Nat)
  | createObject (pubId : Nat)
  | setFilePathField (pubId : Nat) (field : String) (value : JVal)
  | setObjectField (pubId : Nat) (field : String) (value : JVal)
  deriving DecidableEq, Repr

/-- The logical change a replicated operation describes. -/
def CRDTOp.change : CRDTOp → LogicalChange
  | .sharedCreate .filePath p => .createFilePath p
  | .sharedCreate .object p => .createObject p
  | .sharedUpdate .filePath p f v => .setFilePathField p f v
  | .sharedUpdate .object p f v => .setObjectField p f v

/-- The logical changes a local database mutation performs. A
`create_unchecked` with field arguments performs the creation and one field
assignment per argument. -/
def DbMutation.changes : DbMutation → List LogicalChange
  | .filePathSetCasId p c => [.setFilePathField p "cas_id" (.str c)]
  | .filePathConnectObject p o => [.setFilePathField p "object" (.objRef o)]
  | .objectCreate p d k =>
      [.createObject p, .setObjectField p "date_created" (.int d),
       .setObjectField p "kind" (.int k)]

/-- A batch satisfies the pairing invariant when its replicated operations
describe, in order, exactly the logical changes its local mutations perform:
each mutation has its operations and each operation its mutation. -/
def WriteBatch.paired (b : WriteBatch) : Prop :=
  b.syncOps.map CRDTOp.change = (b.dbMuts.map DbMutation.changes).flatten

/-- The file path a mutation writes to, if any. -/
def DbMutation.filePathTarget : DbMutation → Option Nat
  | .filePathSetCasId p _ => some p
  | .filePathConnectObject p _ => some p
  | .objectCreate _ _ _ => none

/-- Concrete environment: every file path extracts successfully with content
identity "a" and kind 7; fresh object pub_ids are 100, 101, …; no write
fails. -/
def envDup : StepEnv :=
  ⟨fun _ => some ⟨"a", 7⟩, fun i => 100 + i, false, false, false, false⟩

/-- Concrete store: two orphan file path rows, no objects. -/
def dbTwo : DbState := ⟨[⟨1, none, none⟩, ⟨2, none, none⟩], []⟩

/-- Concrete chunk: two file paths whose contents are identical under
`envDup`. -/
def fpsDup : List FilePathForFileIdentifier := [⟨10, 1, "/a", 5⟩, ⟨11, 2, "/b", 6⟩]

/-- The concrete outcome of the step on `envDup`, `dbTwo`, `fpsDup`. -/
def outDup : StepOutcome :=
  (identifier_job_step envDup dbTwo fpsDup).toOption.getD ⟨⟨[], []⟩, [], 0, 0⟩

/-- Concrete environment for the three-path scenario: file paths with pub_id
at most 2 extract to content identity "a", the rest to "b"; no write fails. -/
def envScen : StepEnv :=
  ⟨fun fp => some ⟨if fp.pubId ≤ 2 then "a" else "b", 7⟩,
   fun i => 100 + i, false, false, false, false⟩

/-- Concrete store: three orphan file path rows, no objects. -/
def dbThree : DbState := ⟨[⟨1, none, none⟩, ⟨2, none, none⟩, ⟨3, none, none⟩], []⟩

/-- Concrete chunk of three file paths: under `envScen`, the first two share
content identity "a" and the third has identity "b". -/
def fpsScen : List FilePathForFileIdentifier :=
  [⟨10, 1, "/a", 5⟩, ⟨11, 2, "/b", 6⟩, ⟨12, 3, "/c", 7⟩]

/-- Concrete environment whose create-objects batch fails; extraction and the
other writes succeed. -/
def envCreateFail : StepEnv :=
  ⟨fun _ => some ⟨"a", 7⟩, fun i => 100 + i, false, false, true, false⟩

/-- Concrete environment for the five-path scenario: extraction fails (I/O
error) exactly for the file path with pub_id 3; no write fails. -/
def envFive : StepEnv :=
  ⟨fun fp => if fp.pubId = 3 then none else some ⟨String.append "c" (toString fp.pubId), 7⟩,
   fun i => 100 + i, false, false, false, false⟩

/-- Concrete chunk of five file paths (pub_ids 1 to 5). -/
def fpsFive : List FilePathForFileIdentifier :=
  [⟨10, 1, "/a", 5⟩, ⟨11, 2, "/b", 6⟩, ⟨12, 3, "/c", 7⟩, ⟨13, 4, "/d", 8⟩, ⟨14, 5, "/e", 9⟩]

/-- Concrete store: five orphan file path rows, no objects. -/
def dbFive : DbState :=
  ⟨[⟨1, none, none⟩, ⟨2, none, none⟩, ⟨3, none, none⟩, ⟨4, none, none⟩, ⟨5, none, none⟩], []⟩

/-- The concrete final state of a one-chunk driver run on `envDup`, `dbTwo`,
`fpsDup` starting from the default report. -/
def runOneChunk : DbState × Int × FileIdentifierReport :=
  (runChunks "file_identifier" envDup dbTwo 0 FileIdentifierReport.default
    [fpsDup]).toOption.getD (dbTwo, 0, FileIdentifierReport.default)

/-- The concrete outcome of the step on `envScen`, `dbThree`, `fpsScen`. -/
def outScen : StepOutcome :=
  (identifier_job_step envScen dbThree fpsScen).toOption.getD ⟨⟨[], []⟩, [], 0, 0⟩

lemma step_ok_flags (env : StepEnv) (db : DbState)
    (fps : List FilePathForFileIdentifier) (out : StepOutcome)
    (h : identifier_job_step env db fps = Except.ok out) :
    env.casWriteFails = false ∧ env.linkWriteFails = false := by
  by_cases hc : env.casWriteFails
  · simp [identifier_job_step, hc] at h
  · by_cases hl : env.linkWriteFails
    · simp [identifier_job_step, hc, hl] at h
    · exact ⟨by simpa using hc, by simpa using hl⟩

set_option maxRecDepth 8000 in
lemma step_ok_iff (env : StepEnv) (db : DbState) (fps : List FilePathForFileIdentifier)
    (out : StepOutcome) (h1 : env.casWriteFails = false) (h2 : env.linkWriteFails = false) :
    identifier_job_step env db fps = Except.ok out ↔
      (((stepReqNew env db fps).isEmpty || env.createFails) = true ∧
        stepOutcomeNoCreate env db fps = out) ∨
      (((stepReqNew env db fps).isEmpty || env.createFails) = false ∧
        env.newLinkWriteFails = false ∧ stepOutcomeCreate env db fps = out) := by
  simp only [identifier_job_step, stepOutcomeNoCreate, stepOutcomeCreate, stepReqNew,
    stepLinkPairs, stepExistingObjects, h1, h2, Bool.false_eq_true, if_false]
  by_cases hE : (filePathsRequiringNewObject (filePathMetas env fps)
      (existingObjectCasIds (queryObjectsForCasIds
        (applyBatch db (casAssignBatch (filePathMetas env fps)))
        (uniqueCasIds (filePathMetas env fps))))).isEmpty = true
  · rw [hE]
    simp only [Bool.true_or, eq_self_iff_true, if_true, true_and, Bool.true_eq_false,
      false_and, or_false, Except.ok.injEq]
  · rw [Bool.not_eq_true] at hE
    rw [hE]
    simp only [Bool.false_eq_true, if_false, Bool.false_or]
    by_cases hC : env.createFails = true
    · rw [hC]
      simp only [eq_self_iff_true, if_true, true_and, Bool.true_eq_false, false_and,
        or_false, Except.ok.injEq]
    · rw [Bool.not_eq_true] at hC
      rw [hC]
      simp only [Bool.false_eq_true, if_false, false_and, false_or, eq_self_iff_true,
        true_and]
      by_cases hN : env.newLinkWriteFails = true
      · rw [hN]
        constructor
        · intro hcontra
          exact Except.noConfusion hcontra
        · rintro ⟨hcontra, -⟩
          exact Bool.noConfusion hcontra
      · rw [Bool.not_eq_true] at hN
        rw [hN]
        simp only [Bool.false_eq_true, if_false, eq_self_iff_true, true_and,
          Except.ok.injEq]

lemma casAssignBatch_paired (metas : List (Nat × FileMetadata × FilePathForFileIdentifier)) :
    (casAssignBatch metas).paired := by
  unfold WriteBatch.paired casAssignBatch
  induction metas with
  | nil => rfl
  | cons a t ih => simpa [CRDTOp.change, DbMutation.changes] using ih

lemma existingLinkBatch_paired (pairs : List (Nat × Nat)) :
    (existingLinkBatch pairs).paired := by
  unfold WriteBatch.paired existingLinkBatch file_path_object_connect_ops
  induction pairs with
  | nil => rfl
  | cons a t ih => simpa [CRDTOp.change, DbMutation.changes] using ih

lemma objectCreateBatch_paired (env : StepEnv)
    (reqNew : List (Nat × FileMetadata × FilePathForFileIdentifier)) :
    (objectCreateBatch env reqNew).paired := by
  unfold WriteBatch.paired objectCreateBatch
  generalize reqNew.enum = l
  induction l with
  | nil => rfl
  | cons a t ih => simpa [CRDTOp.change, DbMutation.changes] using ih

lemma newLinkBatch_paired (env : StepEnv)
    (reqNew : List (Nat × FileMetadata × FilePathForFileIdentifier)) :
    (newLinkBatch env reqNew).paired := by
  unfold WriteBatch.paired newLinkBatch file_path_object_connect_ops
  generalize reqNew.enum = l
  induction l with
  | nil => rfl
  | cons a t ih => simpa [CRDTOp.change, DbMutation.changes] using ih

/-- C3: for every committed write batch of a chunk step, the replicated
operations describe, one for one and in order, exactly the logical changes
the local database mutations of that batch perform: no local mutation to a
shared FilePath or Object field is submitted without its operation, and no
operation without its mutation. -/
theorem C3_mutation_operation_pairing (env : StepEnv) (db : DbState)
    (fps : List FilePathForFileIdentifier) (out : StepOutcome)
    (h : identifier_job_step env db fps = Except.ok out) :
    ∀ b ∈ out.trace, b.paired := by
  obtain ⟨h1, h2⟩ := step_ok_flags env db fps out h
  rcases (step_ok_iff env db fps out h1 h2).mp h with ⟨-, hout⟩ | ⟨-, -, hout⟩ <;>
    rw [← hout] <;> intro b hb <;>
    simp only [stepOutcomeNoCreate, stepOutcomeCreate, List.mem_cons,
      List.not_mem_nil, or_false] at hb
  · rcases hb with rfl | rfl
    · exact casAssignBatch_paired _
    · exact existingLinkBatch_paired _
  · rcases hb with rfl | rfl | rfl | rfl
    · exact casAssignBatch_paired _
    · exact existingLinkBatch_paired _
    · exact objectCreateBatch_paired _ _
    · exact newLinkBatch_paired _ _

/-- Witness for C3 at a concrete chunk: the step succeeds and its first
committed batch (cas-id assignment) is paired. -/
theorem C3_mutation_operation_pairing_witness :
    identifier_job_step envDup dbTwo fpsDup = Except.ok outDup ∧
      (casAssignBatch (filePathMetas envDup fpsDup)).paired :=
  ⟨rfl, C3_mutation_operation_pairing envDup dbTwo fpsDup outDup rfl
    (casAssignBatch (filePathMetas envDup fpsDup)) (by decide)⟩

/-- C4: an empty chunk makes `process_identifier_file_paths` fail with the
early-finish job error carrying the explicit reason, rather than succeed; no
outcome (cursor, report, writes) is produced, so the cursor and report of the
caller are untouched. -/
theorem C4_empty_chunk_early_finish (jobName : String) (env : StepEnv) (db : DbState)
    (cursor : Int) (report : FileIdentifierReport) :
    process_identifier_file_paths jobName env db [] cursor report =
      Except.error (.earlyFinish jobName
        "Expected orphan Paths not returned from database query for this chunk") := rfl

/-- C5: when the create-objects batch fails, the chunk still returns `Ok`
with zero objects created, and the only committed batches are the cas-id
assignment and the link-to-existing batch — no link writes to newly created
objects are performed (those happen only under a nonzero created count). -/
theorem C5_create_failure_zero_no_links (env : StepEnv) (db : DbState)
    (fps : List FilePathForFileIdentifier) (h1 : env.casWriteFails = false)
    (h2 : env.linkWriteFails = false) (hcf : env.createFails = true) :
    identifier_job_step env db fps = Except.ok (stepOutcomeNoCreate env db fps) ∧
      (stepOutcomeNoCreate env db fps).objectsCreated = 0 ∧
      (stepOutcomeNoCreate env db fps).trace =
        [casAssignBatch (filePathMetas env fps),
         existingLinkBatch (stepLinkPairs env db fps)] := by
  refine ⟨?_, rfl, rfl⟩
  exact (step_ok_iff env db fps _ h1 h2).mpr (Or.inl ⟨by rw [hcf, Bool.or_true], rfl⟩)

/-- Witness for C5 at a concrete chunk with a failing create batch. -/
theorem C5_create_failure_zero_no_links_witness :
    envCreateFail.createFails = true ∧
      identifier_job_step envCreateFail dbTwo fpsDup =
        Except.ok (stepOutcomeNoCreate envCreateFail dbTwo fpsDup) :=
  ⟨rfl, (C5_create_failure_zero_no_links envCreateFail dbTwo fpsDup rfl rfl rfl).1⟩

lemma mem_existingObjectCasIds (c : String) (objs : List ObjectForFileIdentifier) :
    c ∈ existingObjectCasIds objs ↔ ∃ o ∈ objs, some c ∈ o.filePathCasIds := by
  unfold existingObjectCasIds
  simp [List.mem_flatten, List.mem_filterMap]

lemma length_existingLinkPairs
    (metas : List (Nat × FileMetadata × FilePathForFileIdentifier))
    (objs : List ObjectForFileIdentifier) :
    (existingLinkPairs metas objs).length =
      metas.countP (fun x => decide (x.2.1.casId ∈ existingObjectCasIds objs)) := by
  unfold existingLinkPairs
  induction metas with
  | nil => rfl
  | cons a t ih =>
    rw [List.filterMap_cons, List.countP_cons]
    by_cases hm : a.2.1.casId ∈ existingObjectCasIds objs
    · obtain ⟨o, ho, hoc⟩ := (mem_existingObjectCasIds _ _).mp hm
      have hfs : (objs.find? (fun o => decide (some a.2.1.casId ∈ o.filePathCasIds))).isSome :=
        List.find?_isSome.mpr ⟨o, ho, by simpa using hoc⟩
      obtain ⟨o2, ho2⟩ := Option.isSome_iff_exists.mp hfs
      simp [ho2, ih, hm]
    · have hfn : objs.find? (fun o => decide (some a.2.1.casId ∈ o.filePathCasIds)) = none := by
        rw [List.find?_eq_none]
        intro o ho
        simp only [decide_eq_true_eq]
        intro hoc
        exact hm ((mem_existingObjectCasIds _ _).mpr ⟨o, ho, hoc⟩)
      simp [hfn, ih, hm]

lemma of_mem_filePathMetas (env : StepEnv) (fps : List FilePathForFileIdentifier)
    (x : Nat × FileMetadata × FilePathForFileIdentifier)
    (hx : x ∈ filePathMetas env fps) :
    ∃ fp ∈ fps, env.extract fp = some x.2.1 ∧ x.1 = fp.pubId := by
  unfold filePathMetas at hx
  obtain ⟨fp, hfp, hmap⟩ := List.mem_filterMap.mp hx
  cases hext : env.extract fp with
  | none => rw [hext] at hmap; simp at hmap
  | some m =>
    rw [hext] at hmap
    simp only [Option.map_some'] at hmap
    cases hmap
    exact ⟨fp, hfp, by rw [hext], rfl⟩

lemma mem_filePathMetas_intro (env : StepEnv) (fps : List FilePathForFileIdentifier)
    (fp : FilePathForFileIdentifier) (m : FileMetadata)
    (hfp : fp ∈ fps) (hext : env.extract fp = some m) :
    (fp.pubId, m, fp) ∈ filePathMetas env fps := by
  unfold filePathMetas
  exact List.mem_filterMap.mpr ⟨fp, hfp, by rw [hext]; rfl⟩

/-- C1 is a code bug: at a chunk of two file paths with identical content
processed against a store with no matching Object, the chunk has exactly one
distinct content identity, yet the step mints two Objects and links the two
file paths to two different Objects — one fresh Object per file path in
`file_paths_requiring_new_object`, not one per distinct identity. -/
theorem C1_two_objects_minted_for_one_identity :
    identifier_job_step envDup dbTwo fpsDup = Except.ok outDup ∧
      (uniqueCasIds (filePathMetas envDup fpsDup)).length = 1 ∧
      outDup.objectsCreated = 2 ∧
      outDup.db.objects.length = 2 ∧
      outDup.db.filePaths.map (fun fp => fp.objectPubId) = [some 100, some 101] :=
  ⟨rfl, by decide, by decide, by decide, by decide⟩

/-- Counterexample to C2 as stated: at the spec scenario (a chunk of three
file paths, two sharing a content identity and one unique, against an empty
store) the step does not return `(objects_created, objects_linked) = (2, 3)`;
it returns `(3, 0)`. -/
theorem C2_counterexample_scenario :
    identifier_job_step envScen dbThree fpsScen = Except.ok outScen ∧
      ¬(outScen.objectsCreated = 2 ∧ outScen.objectsLinked = 3) ∧
      outScen.objectsCreated = 3 ∧ outScen.objectsLinked = 0 :=
  ⟨rfl, by decide, by decide, by decide⟩

/-- C2 amended: the returned pair counts `objects_linked` as only the file
paths linked to pre-existing Objects (links made to newly created Objects are
not counted), and `objects_created` as one per file path requiring a new
Object (not one per distinct identity), provided the creation batch does not
fail. -/
theorem C2_returned_counts (env : StepEnv) (db : DbState)
    (fps : List FilePathForFileIdentifier) (h1 : env.casWriteFails = false)
    (h2 : env.linkWriteFails = false) (h3 : env.newLinkWriteFails = false)
    (hcf : env.createFails = false) :
    ∃ out, identifier_job_step env db fps = Except.ok out ∧
      out.objectsLinked = (filePathMetas env fps).countP
        (fun x => decide (x.2.1.casId ∈
          existingObjectCasIds (stepExistingObjects env db fps))) ∧
      out.objectsCreated = (filePathMetas env fps).countP
        (fun x => decide (x.2.1.casId ∉
          existingObjectCasIds (stepExistingObjects env db fps))) := by
  have hlink :
      (stepLinkPairs env db fps).length = (filePathMetas env fps).countP
        (fun x => decide (x.2.1.casId ∈
          existingObjectCasIds (stepExistingObjects env db fps))) :=
    length_existingLinkPairs _ _
  have hcreate :
      (stepReqNew env db fps).length = (filePathMetas env fps).countP
        (fun x => decide (x.2.1.casId ∉
          existingObjectCasIds (stepExistingObjects env db fps))) := by
    unfold stepReqNew filePathsRequiringNewObject
    exact (List.countP_eq_length_filter _ _).symm
  by_cases hE : (stepReqNew env db fps).isEmpty = true
  · refine ⟨stepOutcomeNoCreate env db fps,
      (step_ok_iff env db fps _ h1 h2).mpr (Or.inl ⟨by rw [hE, Bool.true_or], rfl⟩),
      hlink, ?_⟩
    have hlen : (stepReqNew env db fps).length = 0 := by
      rw [List.isEmpty_iff] at hE
      rw [hE]
      rfl
    rw [← hcreate, hlen]
    rfl
  · refine ⟨stepOutcomeCreate env db fps,
      (step_ok_iff env db fps _ h1 h2).mpr (Or.inr ⟨?_, h3, rfl⟩), hlink, hcreate⟩
    rw [Bool.not_eq_true] at hE
    rw [hE, hcf, Bool.or_false]

/-- Witness for the amended C2 at the spec scenario: three file paths, two
with identical content, against an empty store. -/
theorem C2_returned_counts_witness :
    ∃ out, identifier_job_step envScen dbThree fpsScen = Except.ok out ∧
      out.objectsLinked = (filePathMetas envScen fpsScen).countP
        (fun x => decide (x.2.1.casId ∈
          existingObjectCasIds (stepExistingObjects envScen dbThree fpsScen))) ∧
      out.objectsCreated = (filePathMetas envScen fpsScen).countP
        (fun x => decide (x.2.1.casId ∉
          existingObjectCasIds (stepExistingObjects envScen dbThree fpsScen))) :=
  C2_returned_counts envScen dbThree fpsScen rfl rfl rfl rfl

lemma snd_mem_of_mem_enum {α : Type _} {x : Nat × α} {l : List α}
    (h : x ∈ l.enum) : x.2 ∈ l := by
  have hget := List.mem_enum_iff_getElem?.mp h
  exact List.getElem?_mem hget

lemma target_of_mem_step_batches (env : StepEnv) (db : DbState)
    (fps : List FilePathForFileIdentifier) (b : WriteBatch) (m : DbMutation) (p : Nat)
    (hb : b = casAssignBatch (filePathMetas env fps) ∨
          b = existingLinkBatch (stepLinkPairs env db fps) ∨
          b = objectCreateBatch env (stepReqNew env db fps) ∨
          b = newLinkBatch env (stepReqNew env db fps))
    (hm : m ∈ b.dbMuts) (hp : m.filePathTarget = some p) :
    ∃ x ∈ filePathMetas env fps, x.1 = p := by
  rcases hb with rfl | rfl | rfl | rfl
  · obtain ⟨x, hx, hmx⟩ := List.mem_map.mp hm
    rw [← hmx] at hp
    simp only [DbMutation.filePathTarget, Option.some.injEq] at hp
    exact ⟨x, hx, hp⟩
  · obtain ⟨pr, hpr, hmx⟩ := List.mem_map.mp hm
    rw [← hmx] at hp
    simp only [file_path_object_connect_ops, DbMutation.filePathTarget,
      Option.some.injEq] at hp
    unfold stepLinkPairs existingLinkPairs at hpr
    obtain ⟨x, hx, hmap⟩ := List.mem_filterMap.mp hpr
    cases hfo : (stepExistingObjects env db fps).find?
        (fun o => decide (some x.2.1.casId ∈ o.filePathCasIds)) with
    | none => rw [hfo] at hmap; simp at hmap
    | some o =>
      rw [hfo] at hmap
      simp only [Option.map_some', Option.some.injEq] at hmap
      refine ⟨x, hx, ?_⟩
      rw [← hp, ← hmap]
  · obtain ⟨ix, hix, hmx⟩ := List.mem_map.mp hm
    rw [← hmx] at hp
    simp [DbMutation.filePathTarget] at hp
  · obtain ⟨ix, hix, hmx⟩ := List.mem_map.mp hm
    rw [← hmx] at hp
    simp only [file_path_object_connect_ops, DbMutation.filePathTarget,
      Option.some.injEq] at hp
    have hx : ix.2 ∈ stepReqNew env db fps := snd_mem_of_mem_enum hix
    unfold stepReqNew filePathsRequiringNewObject at hx
    exact ⟨ix.2, (List.mem_filter.mp hx).1, hp⟩

/-- C6: when metadata extraction fails for one file path of a chunk (and no
write batch fails), the chunk still succeeds; the failed file path receives
no cas-id assignment and no object link in any committed batch, while every
sibling whose extraction succeeded gets its cas-id assignment in the
committed cas-assignment batch. The distinct-pub-id hypothesis carries the
fact that pub_ids are unique UUIDs. -/
theorem C6_extraction_failure_scoped_to_file (env : StepEnv) (db : DbState)
    (fps : List FilePathForFileIdentifier) (fp : FilePathForFileIdentifier)
    (h1 : env.casWriteFails = false) (h2 : env.linkWriteFails = false)
    (h3 : env.newLinkWriteFails = false) (_hmem : fp ∈ fps)
    (_hfail : env.extract fp = none)
    (hother : ∀ fp2 ∈ fps, env.extract fp2 ≠ none → fp2.pubId ≠ fp.pubId) :
    ∃ out, identifier_job_step env db fps = Except.ok out ∧
      (∀ b ∈ out.trace, ∀ m ∈ b.dbMuts, m.filePathTarget ≠ some fp.pubId) ∧
      casAssignBatch (filePathMetas env fps) ∈ out.trace ∧
      (∀ fp2 ∈ fps, ∀ meta, env.extract fp2 = some meta →
        DbMutation.filePathSetCasId fp2.pubId meta.casId ∈
          (casAssignBatch (filePathMetas env fps)).dbMuts) := by
  have key : ∀ (b : WriteBatch),
      (b = casAssignBatch (filePathMetas env fps) ∨
       b = existingLinkBatch (stepLinkPairs env db fps) ∨
       b = objectCreateBatch env (stepReqNew env db fps) ∨
       b = newLinkBatch env (stepReqNew env db fps)) →
      ∀ m ∈ b.dbMuts, m.filePathTarget ≠ some fp.pubId := by
    intro b hb m hm hp
    obtain ⟨x, hx, hxp⟩ := target_of_mem_step_batches env db fps b m fp.pubId hb hm hp
    obtain ⟨fp2, hfp2, hext, hpub⟩ := of_mem_filePathMetas env fps x hx
    refine hother fp2 hfp2 (by rw [hext]; exact Option.some_ne_none _) ?_
    rw [← hpub, hxp]
  have hassign : ∀ fp2 ∈ fps, ∀ meta, env.extract fp2 = some meta →
      DbMutation.filePathSetCasId fp2.pubId meta.casId ∈
        (casAssignBatch (filePathMetas env fps)).dbMuts := by
    intro fp2 hfp2 meta hext
    unfold casAssignBatch
    exact List.mem_map.mpr ⟨(fp2.pubId, meta, fp2),
      mem_filePathMetas_intro env fps fp2 meta hfp2 hext, rfl⟩
  by_cases hE : ((stepReqNew env db fps).isEmpty || env.createFails) = true
  · refine ⟨stepOutcomeNoCreate env db fps,
      (step_ok_iff env db fps _ h1 h2).mpr (Or.inl ⟨hE, rfl⟩), ?_, ?_, hassign⟩
    · intro b hb
      apply key
      simp only [stepOutcomeNoCreate, List.mem_cons, List.not_mem_nil, or_false] at hb
      rcases hb with rfl | rfl
      · exact Or.inl rfl
      · exact Or.inr (Or.inl rfl)
    · simp [stepOutcomeNoCreate]
  · refine ⟨stepOutcomeCreate env db fps,
      (step_ok_iff env db fps _ h1 h2).mpr
        (Or.inr ⟨by rwa [Bool.not_eq_true] at hE, h3, rfl⟩), ?_, ?_, hassign⟩
    · intro b hb
      apply key
      simp only [stepOutcomeCreate, List.mem_cons, List.not_mem_nil, or_false] at hb
      rcases hb with rfl | rfl | rfl | rfl
      · exact Or.inl rfl
      · exact Or.inr (Or.inl rfl)
      · exact Or.inr (Or.inr (Or.inl rfl))
      · exact Or.inr (Or.inr (Or.inr rfl))
    · simp [stepOutcomeCreate]

/-- Witness for C6: five concrete file paths of which exactly the one with
pub_id 3 fails extraction. -/
theorem C6_extraction_failure_scoped_to_file_witness :
    (⟨12, 3, "/c", 7⟩ : FilePathForFileIdentifier) ∈ fpsFive ∧
      envFive.extract ⟨12, 3, "/c", 7⟩ = none ∧
      (∃ out, identifier_job_step envFive dbFive fpsFive = Except.ok out ∧
        (∀ b ∈ out.trace, ∀ m ∈ b.dbMuts,
          m.filePathTarget ≠ some (⟨12, 3, "/c", 7⟩ : FilePathForFileIdentifier).pubId) ∧
        casAssignBatch (filePathMetas envFive fpsFive) ∈ out.trace ∧
        (∀ fp2 ∈ fpsFive, ∀ meta, envFive.extract fp2 = some meta →
          DbMutation.filePathSetCasId fp2.pubId meta.casId ∈
            (casAssignBatch (filePathMetas envFive fpsFive)).dbMuts)) :=
  ⟨by decide, rfl,
   C6_extraction_failure_scoped_to_file envFive dbFive fpsFive ⟨12, 3, "/c", 7⟩
     rfl rfl rfl (by decide) rfl (by decide)⟩

/-- C7: on a non-empty chunk, if the resolver step succeeds, the chunk driver
returns the outcome whose cursor is the `id` of the last row of the batch and
whose report adds the two returned counts to `total_objects_created` and
`total_objects_linked` (all other report fields unchanged); if the resolver
step fails, the chunk driver returns that error and produces no updated
cursor or report. -/
theorem C7_cursor_and_report_on_commit (jobName : String) (env : StepEnv)
    (db : DbState) (fps : List FilePathForFileIdentifier) (cursor : Int)
    (report : FileIdentifierReport) (lastFp : FilePathForFileIdentifier)
    (hlast : fps.getLast? = some lastFp) :
    (∀ out, identifier_job_step env db fps = Except.ok out →
        process_identifier_file_paths jobName env db fps cursor report =
          Except.ok ⟨out.db, out.trace, lastFp.id,
            ⟨report.locationPath, report.totalOrphanPaths,
             report.totalObjectsCreated + out.objectsCreated,
             report.totalObjectsLinked + out.objectsLinked,
             report.totalObjectsIgnored⟩⟩) ∧
      (∀ e, identifier_job_step env db fps = Except.error e →
        process_identifier_file_paths jobName env db fps cursor report =
          Except.error e) := by
  have hne : fps.isEmpty = false := by
    cases fps
    · simp at hlast
    · rfl
  constructor
  · intro out hstep
    unfold process_identifier_file_paths
    rw [hne, hstep, hlast]
    rfl
  · intro e hstep
    unfold process_identifier_file_paths
    rw [hne, hstep]
    rfl

/-- Witness for C7 at a concrete two-path chunk starting from the default
report and cursor 0: the cursor lands on the last row id 11 and the report
accumulates the step counts. -/
theorem C7_cursor_and_report_on_commit_witness :
    process_identifier_file_paths "file_identifier" envDup dbTwo fpsDup 0
        FileIdentifierReport.default =
      Except.ok ⟨outDup.db, outDup.trace, (11 : Int),
        ⟨"", 0, 0 + outDup.objectsCreated, 0 + outDup.objectsLinked, 0⟩⟩ :=
  (C7_cursor_and_report_on_commit "file_identifier" envDup dbTwo fpsDup 0
    FileIdentifierReport.default ⟨11, 2, "/b", 6⟩ rfl).1 outDup rfl

/-- C8: finalization emits the cache-invalidation signal (naming the stale
explorer-data query) exactly when the report counted at least one orphan
path, and in every case returns the report as the job result. -/
theorem C8_finalize_signal_iff_orphans (report : FileIdentifierReport) :
    ((finalize_file_identifier report).1 = some "locations.getExplorerData" ↔
        0 < report.totalOrphanPaths) ∧
      ((finalize_file_identifier report).1 = none ↔ report.totalOrphanPaths = 0) ∧
      (finalize_file_identifier report).2 = Except.ok (some report) := by
  unfold finalize_file_identifier
  by_cases h : 0 < report.totalOrphanPaths
  · refine ⟨by simp [h], by simp [h]; omega, rfl⟩
  · refine ⟨by simp [h], by simp [h]; omega, rfl⟩


/-- C9: the directory-rejection assertion of `FileMetadata::new` panics
exactly when the filesystem metadata reports a directory — so it is reachable
only when the precondition that the path is a file is violated, and under
that precondition the assertion always holds (the function returns a success
or a propagated I/O error, never the panic). -/
theorem C9_directory_assertion (fsMetadata : FsMetadataResult)
    (resolvedKind : Option Int) (casIdResult : Except Unit String) :
    FileMetadata.new fsMetadata resolvedKind casIdResult = .panicked ↔
      ∃ len, fsMetadata = .ok true len := by
  cases fsMetadata with
  | ioError => simp [FileMetadata.new]
  | ok isDir len =>
    cases isDir
    · cases casIdResult <;> simp [FileMetadata.new]
    · simp [FileMetadata.new]

lemma process_ok_ignored (jobName : String) (env : StepEnv) (db : DbState)
    (fps : List FilePathForFileIdentifier) (cursor : Int)
    (report : FileIdentifierReport) (out : ProcessOutcome)
    (h : process_identifier_file_paths jobName env db fps cursor report =
      Except.ok out) :
    out.report.totalObjectsIgnored = report.totalObjectsIgnored := by
  unfold process_identifier_file_paths at h
  cases hfe : fps.isEmpty
  · rw [hfe] at h
    simp only [Bool.false_eq_true, if_false] at h
    cases hstep : identifier_job_step env db fps with
    | error e => rw [hstep] at h; exact Except.noConfusion h
    | ok o =>
      rw [hstep] at h
      simp only [Except.ok.injEq] at h
      rw [← h]
  · rw [hfe] at h
    simp only [if_true] at h
    exact Except.noConfusion h

lemma runChunks_ok_ignored (jobName : String) (env : StepEnv) :
    ∀ (chunks : List (List FilePathForFileIdentifier)) (db : DbState)
      (cursor : Int) (report : FileIdentifierReport)
      (out : DbState × Int × FileIdentifierReport),
      runChunks jobName env db cursor report chunks = Except.ok out →
      out.2.2.totalObjectsIgnored = report.totalObjectsIgnored := by
  intro chunks
  induction chunks with
  | nil =>
    intro db cursor report out h
    unfold runChunks at h
    simp only [Except.ok.injEq] at h
    rw [← h]
  | cons c cs ih =>
    intro db cursor report out h
    unfold runChunks at h
    cases hp : process_identifier_file_paths jobName env db c cursor report with
    | error e => rw [hp] at h; exact Except.noConfusion h
    | ok o =>
      rw [hp] at h
      rw [ih o.db o.cursor o.report out h,
        process_ok_ignored jobName env db c cursor report o hp]

/-- C10: the `total_objects_ignored` field starts at zero in the default
report and is never incremented by any chunk, so every driver run that starts
from the default report ends (and is finalized) with it still zero. -/
theorem C10_ignored_always_zero (jobName : String) (env : StepEnv) (db : DbState)
    (cursor : Int) (chunks : List (List FilePathForFileIdentifier))
    (out : DbState × Int × FileIdentifierReport)
    (h : runChunks jobName env db cursor FileIdentifierReport.default chunks =
      Except.ok out) :
    out.2.2.totalObjectsIgnored = 0 ∧
      (finalize_file_identifier out.2.2).2 = Except.ok (some out.2.2) :=
  ⟨runChunks_ok_ignored jobName env chunks db cursor _ out h, rfl⟩

/-- Witness for C10 on a concrete one-chunk run. -/
theorem C10_ignored_always_zero_witness :
    runChunks "file_identifier" envDup dbTwo 0 FileIdentifierReport.default [fpsDup] =
        Except.ok runOneChunk ∧
      runOneChunk.2.2.totalObjectsIgnored = 0 :=
  ⟨rfl, (C10_ignored_always_zero "file_identifier" envDup dbTwo 0 [fpsDup]
    runOneChunk rfl).1⟩

end FileIdentifier
